import Mathlib

/-!
Shallow embedding of `src/lb9/lb9(2).py`, a script that fetches Binance
trading-pair metadata and historical klines, validates them with pydantic
models, assembles pandas time series and plots them.

Conventions of the embedding:
* Python strings are Lean `String`s; the Python predicates `str.isupper`,
  `str.isalnum`, `str.islower` are modelled character-wise, faithful on the
  ASCII range the script's data lives in.
* Python floats are modelled as exact rationals `ℚ` (all comparisons in the
  claims are equalities between values parsed from the same literals, which
  the rational model decides the same way `float` equality does).
* pydantic v1 semantics (the `validator` decorator and `constr` types used by
  the source) are embedded explicitly: fields are validated independently in
  declaration order; within one field the checks run in order (constrained-type
  checks first, then the `@validator` functions in their definition order) and
  stop at the first failure; the errors of all failed fields are collected into
  one `ValidationError`.
* Fallible Python code (raising) is modelled with `Except`.
-/

/-- A character is cased (ASCII fragment: exactly the letters). -/
def isCasedChar (c : Char) : Bool := c.isUpper || c.isLower

/-- Model of Python `str.isupper()`: at least one cased character and no
lowercase cased character (ASCII-faithful). Note `"123".isupper() = False`
because a string of digits has no cased character. -/
def pyIsUpper (s : String) : Bool :=
  s.toList.any isCasedChar && s.toList.all (fun c => !c.isLower)

/-- Model of Python `str.isalnum()`: non-empty and every character
alphanumeric (ASCII-faithful). -/
def pyIsAlnum (s : String) : Bool :=
  !s.isEmpty && s.toList.all (fun c => c.isAlphanum)

/-- The validated trading-pair record (`PairModel` in the source): `symbol`
is declared `constr(min_length=6, max_length=6)`, both assets
`constr(max_length=10)`. -/
structure PairModel where
  symbol : String
  base_asset : String
  quote_asset : String
deriving DecidableEq, Repr

/-- One entry of a pydantic `ValidationError`: the field it is located at and
the message of the violated rule. -/
structure FieldError where
  loc : String
  msg : String
deriving DecidableEq, Repr

/-- Validation pipeline for the `symbol` field, in pydantic execution order:
the `constr(min_length=6, max_length=6)` length checks, then
`validate_symbol_length`, then `validate_symbol_format` (the two `@validator`
functions in their definition order). The first failing check aborts the
field, so `none` means the field passed every check. -/
def symbolError (s : String) : Option String :=
  if s.length < 6 then some "ensure this value has at least 6 characters"
  else if 6 < s.length then some "ensure this value has at most 6 characters"
  else if s.length ≠ 6 then some "Symbol length must be 6 characters"
  else if !(pyIsAlnum s) then some "Symbol must contain only alphanumeric characters"
  else none

/-- Validation pipeline for `base_asset` and `quote_asset`: the
`constr(max_length=10)` check, then `validate_asset_case` (which requires
`v.isupper()`). -/
def assetError (s : String) : Option String :=
  if 10 < s.length then some "ensure this value has at most 10 characters"
  else if !(pyIsUpper s) then some "Asset symbols must be uppercase"
  else none

/-- The errors pydantic collects for one `PairModel(...)` construction: each
field is validated independently (fail-fast inside the field), and the
failures of all fields are gathered in field declaration order. -/
def pairModelErrors (symbol base_asset quote_asset : String) : List FieldError :=
  ((symbolError symbol).map (FieldError.mk "symbol")).toList ++
  ((assetError base_asset).map (FieldError.mk "base_asset")).toList ++
  ((assetError quote_asset).map (FieldError.mk "quote_asset")).toList

/-- `PairModel(symbol=..., base_asset=..., quote_asset=...)`: succeeds with
the record (fields unchanged — the source's `anystr_strip_whitespace` sits in
an inner class pydantic ignores, so no stripping happens) or raises a
`ValidationError` carrying the collected field errors. -/
def mkPairModel (symbol base_asset quote_asset : String) :
    Except (List FieldError) PairModel :=
  match pairModelErrors symbol base_asset quote_asset with
  | [] => .ok ⟨symbol, base_asset, quote_asset⟩
  | es => .error es

example : mkPairModel "BTCUSD" "BTC" "USD" = .ok ⟨"BTCUSD", "BTC", "USD"⟩ := rfl
example : mkPairModel "ABC" "abc" "USD" =
    .error [⟨"symbol", "ensure this value has at least 6 characters"⟩,
            ⟨"base_asset", "Asset symbols must be uppercase"⟩] := rfl
example : pyIsUpper "123" = false := by decide
example : pyIsUpper "" = false := by decide
example : mkPairModel "ABCDEF" "123" "USD" =
    .error [⟨"base_asset", "Asset symbols must be uppercase"⟩] := rfl

/-- A JSON scalar as it occurs in a Binance kline array: integers and
strings. -/
inductive JVal where
  | int (n : Int)
  | str (s : String)
deriving DecidableEq, Repr

/-- Digits of a decimal numeral to a natural number; `none` unless the list
is non-empty and all digits. -/
def parseNatDigits (cs : List Char) : Option ℕ :=
  if cs.isEmpty then none
  else if cs.all (fun c => c.isDigit) then
    some (cs.foldl (fun a c => 10 * a + (c.toNat - 48)) 0)
  else none

/-- Decomposition of a plain decimal literal (optional sign, integer part,
optional fractional part) into an integer numerator and the power-of-ten
decimal exponent: the literal denotes `numerator / 10 ^ exponent`. -/
def parseDecimalParts (s : String) : Option (Int × ℕ) :=
  let (sign, rest) : Int × List Char :=
    match s.toList with
    | '-' :: t => (-1, t)
    | '+' :: t => (1, t)
    | t => (1, t)
  let intPart := rest.takeWhile (fun c => c ≠ '.')
  let fracTail := rest.dropWhile (fun c => c ≠ '.')
  match fracTail with
  | [] => do
      let n ← parseNatDigits intPart
      pure (sign * n, 0)
  | '.' :: fracPart =>
      if intPart.isEmpty ∧ fracPart.isEmpty then none
      else do
        let ip ← if intPart.isEmpty then pure 0 else parseNatDigits intPart
        let fp ← if fracPart.isEmpty then pure 0 else parseNatDigits fracPart
        pure (sign * (ip * 10 ^ fracPart.length + fp), fracPart.length)
  | _ => none

/-- Model of Python `float(s)` on plain decimal literals; the exchange sends
prices and volumes in exactly this form. -/
def parseDecimalStr (s : String) : Option ℚ :=
  (parseDecimalParts s).map (fun p => Rat.divInt p.1 ((10 : Int) ^ p.2))

/-- Model of the Python builtin `float(x)` as applied by
`get_historical_data` to kline entries: numbers pass through, strings are
parsed; failure raises `ValueError`. -/
def pyFloat (v : JVal) : Except String ℚ :=
  match v with
  | .int n => .ok (n : ℚ)
  | .str s =>
    match parseDecimalStr s with
    | some q => .ok q
    | none => .error ("ValueError: could not convert string to float: " ++ s)

/-- Model of pydantic coercion into an `int` field (`open_time`,
`close_time`, `num_trades`): integers pass through, strings of an integer
literal are coerced, anything else is a validation failure. -/
def pyIntField (v : JVal) : Except String Int :=
  match v with
  | .int n => .ok n
  | .str s =>
    let (sign, rest) : Int × List Char :=
      match s.toList with
      | '-' :: t => (-1, t)
      | '+' :: t => (1, t)
      | t => (1, t)
    match parseNatDigits rest with
    | some n => .ok (sign * n)
    | none => .error "value is not a valid integer"

/-- The 12-field candle record (`HistoricalData` in the source). Floats are
modelled as `ℚ`. -/
structure HistoricalData where
  open_time : Int
  «open» : ℚ
  high : ℚ
  low : ℚ
  close : ℚ
  volume : ℚ
  close_time : Int
  quote_asset_volume : ℚ
  num_trades : Int
  taker_buy_base_asset_volume : ℚ
  taker_buy_quote_asset_volume : ℚ
  ignore : ℚ
deriving DecidableEq, Repr

/-- `candle[i]` on a raw kline list; a missing index raises `IndexError`. -/
def getItem (xs : List JVal) (i : ℕ) : Except String JVal :=
  match xs.get? i with
  | some v => .ok v
  | none => .error "IndexError: list index out of range"

/-- Parsing of one raw kline array into a `HistoricalData`, as the body of
the loop in `get_historical_data` does: the constructor arguments are
evaluated in source order (indexing, and `float(...)` on positions
1,2,3,4,5,7,9,10,11), then pydantic coerces the `int` fields
(`HistoricalData` declares no validators of its own). -/
def parseKline (candle : List JVal) : Except String HistoricalData := do
  let a0 ← getItem candle 0
  let o ← getItem candle 1 >>= pyFloat
  let h ← getItem candle 2 >>= pyFloat
  let l ← getItem candle 3 >>= pyFloat
  let c ← getItem candle 4 >>= pyFloat
  let v ← getItem candle 5 >>= pyFloat
  let a6 ← getItem candle 6
  let qv ← getItem candle 7 >>= pyFloat
  let a8 ← getItem candle 8
  let tb ← getItem candle 9 >>= pyFloat
  let tq ← getItem candle 10 >>= pyFloat
  let ig ← getItem candle 11 >>= pyFloat
  let ot ← pyIntField a0
  let ct ← pyIntField a6
  let nt ← pyIntField a8
  pure ⟨ot, o, h, l, c, v, ct, qv, nt, tb, tq, ig⟩

/-- `get_historical_data` on an already-received JSON body: parse each kline
in response order, aborting on the first malformed element (the Python loop
lets the exception propagate). -/
def get_historical_data : List (List JVal) → Except String (List HistoricalData)
  | [] => .ok []
  | k :: ks => do
    let c ← parseKline k
    let cs ← get_historical_data ks
    .ok (c :: cs)

/-- One entry of `data['symbols']` in the exchange-metadata response,
restricted to the keys the script reads. -/
structure SymbolRecord where
  symbol : String
  baseAsset : String
  quoteAsset : String
deriving DecidableEq, Repr

/-- `get_pairs` on an already-received metadata body: validate each record
into a `PairModel` in order, aborting with the `ValidationError` of the
first malformed record. -/
def get_pairs : List SymbolRecord → Except (List FieldError) (List PairModel)
  | [] => .ok []
  | r :: rs => do
    let p ← mkPairModel r.symbol r.baseAsset r.quoteAsset
    let ps ← get_pairs rs
    .ok (p :: ps)

/-- The `DataFrame(products, columns=['Product'])` that `get_products`
returns. -/
structure ProductsFrame where
  column : String
  values : List String
deriving DecidableEq, Repr

/-- `get_products` on an already-received metadata body: it projects
`product['symbol']` from every record with NO validation (it never
constructs `PairModel`s) and wraps them in a one-column DataFrame. -/
def get_products (resp : List SymbolRecord) : ProductsFrame :=
  ⟨"Product", resp.map (fun r => r.symbol)⟩

/-- A scalar cell of a pandas DataFrame built from candle dicts. -/
inductive PValue where
  | int (n : Int)
  | rat (q : ℚ)
deriving DecidableEq, Repr

/-- The keys of `candle.dict()` with their projections, in field declaration
order: these become the columns of `pd.DataFrame([candle.dict() ...])`. -/
def candleFields : List (String × (HistoricalData → PValue)) :=
  [("open_time", fun r => .int r.open_time),
   ("open", fun r => .rat r.«open»),
   ("high", fun r => .rat r.high),
   ("low", fun r => .rat r.low),
   ("close", fun r => .rat r.close),
   ("volume", fun r => .rat r.volume),
   ("close_time", fun r => .int r.close_time),
   ("quote_asset_volume", fun r => .rat r.quote_asset_volume),
   ("num_trades", fun r => .int r.num_trades),
   ("taker_buy_base_asset_volume", fun r => .rat r.taker_buy_base_asset_volume),
   ("taker_buy_quote_asset_volume", fun r => .rat r.taker_buy_quote_asset_volume),
   ("ignore", fun r => .rat r.ignore)]

/-- A DataFrame of candle rows: its column set and its rows.
`pd.DataFrame` of an EMPTY list of dicts has NO columns at all; of a
non-empty list, the dict keys. -/
structure CandleFrame where
  columns : List String
  rows : List HistoricalData
deriving Repr

/-- `pd.DataFrame([candle.dict() for candle in cs])`. -/
def pdDataFrame (cs : List HistoricalData) : CandleFrame :=
  ⟨if cs.isEmpty then [] else candleFields.map (fun p => p.1), cs⟩

/-- Column access `df[c]`: raises `KeyError` when `c` is not a column of the
frame (in particular on the column-less empty frame). -/
def frameColumn (fr : CandleFrame) (c : String) : Except String (List PValue) :=
  if fr.columns.contains c then
    match candleFields.find? (fun p => p.1 == c) with
    | some pr => .ok (fr.rows.map pr.2)
    | none => .error ("KeyError: " ++ c)
  else .error ("KeyError: " ++ c)

/-- `pd.to_datetime(v, unit='ms')` on one cell: the instant, kept in epoch
milliseconds. -/
def pdToDatetimeMs (v : PValue) : Int :=
  match v with
  | .int n => n
  | .rat q => ⌊q⌋

/-- The time-indexed table the orchestrator prints and plots. -/
structure TimeSeries where
  index : List Int
  rows : List HistoricalData
deriving Repr

/-- Series assembly as the orchestrator does it
(`df = pd.DataFrame([candle.dict() for candle in hd]);
df.index = pd.to_datetime(df['open_time'], unit='ms')`). -/
def buildSeries (cs : List HistoricalData) : Except String TimeSeries := do
  let fr := pdDataFrame cs
  let ot ← frameColumn fr "open_time"
  .ok ⟨ot.map pdToDatetimeMs, fr.rows⟩

/-- A log record as `logging` hands it to the handlers: the format fields
the configured format string reads. -/
structure LogRecord where
  asctime : String
  name : String
  levelname : String
  msg : String
deriving DecidableEq, Repr

/-- The base `logging.Formatter` with format string
`'%(asctime)s - %(name)s - %(levelname)s - %(message)s'`. -/
def formatBase (r : LogRecord) : String :=
  r.asctime ++ " - " ++ r.name ++ " - " ++ r.levelname ++ " - " ++ r.msg

/-- `CustomFormatter.format`: it MUTATES the record (`record.msg =
"CUSTOM: " + record.msg`) and then delegates to the base formatter, so it
returns both the updated record and the formatted line. -/
def customFormat (r : LogRecord) : LogRecord × String :=
  let r2 : LogRecord := { r with msg := "CUSTOM: " ++ r.msg }
  (r2, formatBase r2)

/-- `Logger.callHandlers` for the configured loggers: the handlers are
iterated in registration order (`console_handler` then `file_handler`), both
share the single `CustomFormatter` instance, and both format the SAME
mutable record object. Returns the line each handler emits. -/
def callHandlers (r : LogRecord) : List String :=
  let consoleStep := customFormat r
  let fileStep := customFormat consoleStep.1
  [consoleStep.2, fileStep.2]

/-- Microseconds in one day: `timedelta(days=1)` at `datetime`'s microsecond
resolution. -/
def dayUs : ℕ := 86400000000

/-- `int(dt.timestamp()) * 1000` for a datetime lying `us` microseconds
after the epoch (fixed-offset clock; `int` truncates the positive float to
whole seconds). -/
def toEpochMsTrunc (us : ℕ) : ℕ := us / 1000000 * 1000

/-- `start_time_day = end_time - timedelta(days=1)`, in microseconds. -/
def start_time_day (now_us : ℕ) : ℕ := now_us - dayUs

/-- `start_time_month = end_time - timedelta(days=30)`, in microseconds. -/
def start_time_month (now_us : ℕ) : ℕ := now_us - 30 * dayUs

/-- `start_time_year = end_time - timedelta(days=365)`, in microseconds. -/
def start_time_year (now_us : ℕ) : ℕ := now_us - 365 * dayUs

/-- The `startTime` query value the orchestrator passes for the day window:
`int(start_time_day.timestamp())*1000`. -/
def startTimeDayMs (now_us : ℕ) : ℕ := toEpochMsTrunc (start_time_day now_us)

/-- The `startTime` query value for the month window. -/
def startTimeMonthMs (now_us : ℕ) : ℕ := toEpochMsTrunc (start_time_month now_us)

/-- The `startTime` query value for the year window. -/
def startTimeYearMs (now_us : ℕ) : ℕ := toEpochMsTrunc (start_time_year now_us)

/-- The `endTime` query value: `int(end_time.timestamp())*1000`, the fixed
"now" expressed in epoch milliseconds. -/
def endTimeMs (now_us : ℕ) : ℕ := toEpochMsTrunc now_us

/-- The three lookback windows of the main loop. -/
inductive TimeWindow where
  | day
  | month
  | year
deriving DecidableEq, Repr

/-- The hardcoded `selected_products` list. -/
def selected_products : List String := ["BTCUSDT", "ETHUSDT", "LTCUSDT"]

/-- The fetch/assemble steps the loop body runs for one product, in source
order: last day, last month, last year. -/
def productSteps (p : String) : List (String × TimeWindow) :=
  [(p, .day), (p, .month), (p, .year)]

/-- All fetch/assemble steps of the main loop, in execution order. -/
def mainSteps : List (String × TimeWindow) :=
  (selected_products.map productSteps).flatten

/-- Sequential execution of steps with NO exception handling, as in the
script's main loop (it contains no try/except): an error at any step
propagates and terminates the process, so later steps never run. Returns
the successfully completed steps and the terminating error, if any. -/
def runSteps (f : String × TimeWindow → Except String Unit) :
    List (String × TimeWindow) → List (String × TimeWindow) × Option String
  | [] => ([], none)
  | s :: rest =>
    match f s with
    | .error e => ([], some e)
    | .ok _ =>
      match runSteps f rest with
      | (done, r) => (s :: done, r)

/-- The whole main loop, abstracted over the outcome `f` of each
(symbol, window) fetch/assemble step. -/
def runMainLoop (f : String × TimeWindow → Except String Unit) :
    List (String × TimeWindow) × Option String :=
  runSteps f mainSteps

/-- The fixed raw kline array of the spec's parsing example. -/
def rawKline : List JVal :=
  [.int 1690000000000, .str "100.5", .str "101.0", .str "99.5", .str "100.8",
   .str "10.0", .int 1690003600000, .str "1000.0", .int 42, .str "5.0",
   .str "500.0", .str "0"]

/-- The candle the fixed raw kline parses to (each price as the exact
rational the decimal literal denotes). -/
def sampleCandle : HistoricalData :=
  ⟨1690000000000, Rat.divInt 1005 10, Rat.divInt 1010 10, Rat.divInt 995 10,
   Rat.divInt 1008 10, Rat.divInt 100 10, 1690003600000, Rat.divInt 10000 10,
   42, Rat.divInt 50 10, Rat.divInt 5000 10, Rat.divInt 0 1⟩

/-- A metadata response with one record whose base asset is lowercase. -/
def respBad : List SymbolRecord := [⟨"ABCDEF", "abc", "USD"⟩]

/-- A metadata response whose records all pass validation. -/
def respGood : List SymbolRecord :=
  [⟨"BTCUSD", "BTC", "USD"⟩, ⟨"LTCBTC", "LTC", "BTC"⟩]

/-- A run outcome where the month fetch of the first product fails and every
other step would succeed. -/
def failMidFetch : String × TimeWindow → Except String Unit :=
  fun s => if s = ("BTCUSDT", TimeWindow.month) then .error "ConnectionError" else .ok ()

/-- A run outcome where the year fetch of the second product fails and every
other step would succeed. -/
def failLateFetch : String × TimeWindow → Except String Unit :=
  fun s => if s = ("ETHUSDT", TimeWindow.year) then .error "ParseError" else .ok ()

lemma symbolError_isSome_of_bad_length {s : String} (h : s.length ≠ 6) :
    (symbolError s).isSome := by
  unfold symbolError
  split_ifs <;> simp_all

lemma symbolError_isSome_of_not_alnum {s : String} (h : pyIsAlnum s = false) :
    (symbolError s).isSome := by
  unfold symbolError
  split_ifs <;> simp_all

lemma assetError_isSome_of_not_upper {s : String} (h : pyIsUpper s = false) :
    (assetError s).isSome := by
  unfold assetError
  split_ifs <;> simp_all

lemma pyIsUpper_eq_false_of_uncased {s : String}
    (h : s.toList.all (fun c => !isCasedChar c) = true) : pyIsUpper s = false := by
  have hany : s.toList.any isCasedChar = false := by
    rw [List.any_eq_false]
    intro x hx
    have := List.all_eq_true.mp h x hx
    simpa using this
  rw [pyIsUpper, hany, Bool.false_and]

lemma mkPairModel_error_of_some {s b q : String}
    (h : (symbolError s).isSome ∨ (assetError b).isSome ∨ (assetError q).isSome) :
    ∃ es, mkPairModel s b q = .error es ∧ es ≠ [] := by
  have hne : pairModelErrors s b q ≠ [] := by
    unfold pairModelErrors
    rcases h with h | h | h <;>
      obtain ⟨m, hm⟩ := Option.isSome_iff_exists.mp h <;>
      simp [hm]
  cases hes : pairModelErrors s b q with
  | nil => exact absurd hes hne
  | cons e es =>
    exact ⟨e :: es, by simp [mkPairModel, hes], by simp⟩

lemma mkPairModel_ok_eq {s b q : String} {p : PairModel}
    (h : mkPairModel s b q = .ok p) : p = ⟨s, b, q⟩ := by
  unfold mkPairModel at h
  cases hes : pairModelErrors s b q with
  | nil => rw [hes] at h; exact (Except.ok.injEq .. ▸ h.symm)
  | cons e es => rw [hes] at h; cases h

lemma runSteps_append_abort (f : String × TimeWindow → Except String Unit)
    (e : String) (pre post : List (String × TimeWindow)) (s : String × TimeWindow)
    (hpre : ∀ x ∈ pre, f x = .ok ()) (hs : f s = .error e) :
    runSteps f (pre ++ s :: post) = (pre, some e) := by
  induction pre with
  | nil => simp [runSteps, hs]
  | cons a t ih =>
    have ha : f a = .ok () := hpre a (List.mem_cons_self a t)
    have ht : ∀ x ∈ t, f x = .ok () := fun x hx => hpre x (List.mem_cons_of_mem a hx)
    simp [runSteps, ha, ih ht]

/-- C2: for every fixed "now" (any instant at microsecond resolution, at
least a year after the epoch), the three `startTime` values the orchestrator
passes to `get_historical_data` are exactly the passed `endTime` (the fixed
"now" expressed in epoch milliseconds) minus 1, 30 and 365 days of
milliseconds. -/
theorem window_start_times (now_us : ℕ) (h : 365 * dayUs ≤ now_us) :
    startTimeDayMs now_us = endTimeMs now_us - 1 * 86400000 ∧
    startTimeMonthMs now_us = endTimeMs now_us - 30 * 86400000 ∧
    startTimeYearMs now_us = endTimeMs now_us - 365 * 86400000 := by
  unfold startTimeDayMs startTimeMonthMs startTimeYearMs endTimeMs
    toEpochMsTrunc start_time_day start_time_month start_time_year dayUs at *
  omega

/-- Witness for C2 at a concrete "now". -/
theorem window_start_times_witness :
    startTimeDayMs 1760227200123456 = endTimeMs 1760227200123456 - 1 * 86400000 ∧
    startTimeMonthMs 1760227200123456 = endTimeMs 1760227200123456 - 30 * 86400000 ∧
    startTimeYearMs 1760227200123456 = endTimeMs 1760227200123456 - 365 * 86400000 :=
  window_start_times 1760227200123456 (by decide)

/-- C3: a record whose symbol has length ≠ 6, or whose symbol is not
alphanumeric, or whose base or quote asset fails the uppercase check, is
rejected: `PairModel` construction raises a `ValidationError` with a
non-empty list of named rule violations. -/
theorem invalid_pair_record_rejected (s b q : String)
    (h : s.length ≠ 6 ∨ pyIsAlnum s = false ∨ pyIsUpper b = false ∨ pyIsUpper q = false) :
    ∃ es, mkPairModel s b q = .error es ∧ es ≠ [] := by
  apply mkPairModel_error_of_some
  rcases h with h | h | h | h
  · exact Or.inl (symbolError_isSome_of_bad_length h)
  · exact Or.inl (symbolError_isSome_of_not_alnum h)
  · exact Or.inr (Or.inl (assetError_isSome_of_not_upper h))
  · exact Or.inr (Or.inr (assetError_isSome_of_not_upper h))

/-- Witness for C3: the real exchange symbol "BTCUSDT" is 7 characters long
and is rejected. -/
theorem invalid_pair_record_rejected_witness :
    ∃ es, mkPairModel "BTCUSDT" "BTC" "USDT" = .error es ∧ es ≠ [] :=
  invalid_pair_record_rejected "BTCUSDT" "BTC" "USDT" (Or.inl (by decide))

/-- C4: a record with a 6-character alphanumeric symbol and uppercase assets
of at most 10 characters is accepted, and the constructed record carries the
three inputs unchanged. -/
theorem valid_pair_record_roundtrip (s b q : String)
    (h1 : s.length = 6) (h2 : pyIsAlnum s = true)
    (h3 : pyIsUpper b = true) (h4 : b.length ≤ 10)
    (h5 : pyIsUpper q = true) (h6 : q.length ≤ 10) :
    mkPairModel s b q = .ok ⟨s, b, q⟩ := by
  have hs : symbolError s = none := by
    unfold symbolError
    simp [h1, h2]
  have hb : assetError b = none := by
    unfold assetError
    simp [h3, show ¬(10 < b.length) by omega]
  have hq : assetError q = none := by
    unfold assetError
    simp [h5, show ¬(10 < q.length) by omega]
  simp [mkPairModel, pairModelErrors, hs, hb, hq]

/-- Witness for C4 at a concrete valid record. -/
theorem valid_pair_record_roundtrip_witness :
    mkPairModel "BTCUSD" "BTC" "USD" = .ok ⟨"BTCUSD", "BTC", "USD"⟩ :=
  valid_pair_record_roundtrip "BTCUSD" "BTC" "USD"
    (by decide) (by decide) (by decide) (by decide) (by decide) (by decide)

/-- C10: an asset string with no cased characters (all digits, or empty)
fails the `isupper()` check even though it contains no lowercase letter, so
the record is rejected. -/
theorem uncased_asset_rejected (s b q : String)
    (h : b.toList.all (fun c => !isCasedChar c) = true ∨
         q.toList.all (fun c => !isCasedChar c) = true) :
    ∃ es, mkPairModel s b q = .error es ∧ es ≠ [] := by
  apply mkPairModel_error_of_some
  rcases h with h | h
  · exact Or.inr (Or.inl (assetError_isSome_of_not_upper (pyIsUpper_eq_false_of_uncased h)))
  · exact Or.inr (Or.inr (assetError_isSome_of_not_upper (pyIsUpper_eq_false_of_uncased h)))

/-- Witness for C10: the all-digit base asset "123" is rejected although it
contains no lowercase letter. -/
theorem uncased_asset_rejected_witness :
    ∃ es, mkPairModel "ABCDEF" "123" "USD" = .error es ∧ es ≠ [] :=
  uncased_asset_rejected "ABCDEF" "123" "USD" (Or.inl (by decide))

/-- C7 counterexample: a record violating rules on two different fields
(symbol too short AND lowercase base asset) yields a `ValidationError`
reporting BOTH rules, not only the first one: pydantic collects one error
per invalid field. -/
theorem pair_multi_field_reports_both :
    mkPairModel "ABC" "abc" "USD" =
      .error [⟨"symbol", "ensure this value has at least 6 characters"⟩,
              ⟨"base_asset", "Asset symbols must be uppercase"⟩] := rfl

/-- C7 (amended): validation is fail-fast only WITHIN a field: here the
symbol violates three rules (the `constr` minimum length, the custom length
validator, the alphanumeric validator) yet contributes exactly one error —
its first violated rule — while every other invalid field still contributes
its own (first) error. -/
theorem pair_fail_fast_per_field (s b q : String)
    (h1 : s.length < 6) (_h2 : pyIsAlnum s = false)
    (h3 : pyIsUpper b = false) (h4 : b.length ≤ 10)
    (h5 : pyIsUpper q = false) (h6 : q.length ≤ 10) :
    mkPairModel s b q =
      .error [⟨"symbol", "ensure this value has at least 6 characters"⟩,
              ⟨"base_asset", "Asset symbols must be uppercase"⟩,
              ⟨"quote_asset", "Asset symbols must be uppercase"⟩] := by
  have hs : symbolError s = some "ensure this value has at least 6 characters" := by
    unfold symbolError
    simp [h1]
  have hb : assetError b = some "Asset symbols must be uppercase" := by
    unfold assetError
    simp [h3, show ¬(10 < b.length) by omega]
  have hq : assetError q = some "Asset symbols must be uppercase" := by
    unfold assetError
    simp [h5, show ¬(10 < q.length) by omega]
  simp [mkPairModel, pairModelErrors, hs, hb, hq]

/-- Witness for the amended C7 at a concrete record invalid in all three
fields. -/
theorem pair_fail_fast_per_field_witness :
    mkPairModel "a#" "abc" "usd" =
      .error [⟨"symbol", "ensure this value has at least 6 characters"⟩,
              ⟨"base_asset", "Asset symbols must be uppercase"⟩,
              ⟨"quote_asset", "Asset symbols must be uppercase"⟩] :=
  pair_fail_fast_per_field "a#" "abc" "usd"
    (by decide) (by decide) (by decide) (by decide) (by decide) (by decide)

/-- C5: parsing the fixed raw kline array yields a candle with
open 100.5, high 101.0, low 99.5, close 100.8 and 42 trades. -/
theorem kline_parse_fixed_values :
    ∃ cd, parseKline rawKline = Except.ok cd ∧
      cd.«open» = 100.5 ∧ cd.high = 101.0 ∧ cd.low = 99.5 ∧
      cd.close = 100.8 ∧ cd.num_trades = 42 := by
  refine ⟨sampleCandle, rfl, ?_, ?_, ?_, ?_, rfl⟩ <;>
    norm_num [sampleCandle, Rat.divInt_eq_div]

/-- C6 counterexample: on a response holding one record with a lowercase
base asset, `get_pairs` raises a `ValidationError` (so it returns NO
entries) while `get_products` happily returns that record's symbol — the
projection does not go through `listPairs` and skips validation. -/
theorem products_diverge_from_pairs :
    get_pairs respBad = .error [⟨"base_asset", "Asset symbols must be uppercase"⟩] ∧
    (get_products respBad).values = ["ABCDEF"] ∧
    (get_products respBad).values ≠ [] := ⟨rfl, rfl, by decide⟩

/-- C6 (amended): on every response on which `get_pairs` succeeds,
`get_products` returns exactly the `symbol` field of each returned
`PairModel`, in the same order. -/
theorem products_eq_pairs_symbols (resp : List SymbolRecord) (ps : List PairModel)
    (h : get_pairs resp = .ok ps) :
    (get_products resp).values = ps.map PairModel.symbol := by
  induction resp generalizing ps with
  | nil =>
    simp [get_pairs] at h
    subst h
    simp [get_products]
  | cons r rs ih =>
    rw [get_pairs] at h
    cases hm : mkPairModel r.symbol r.baseAsset r.quoteAsset with
    | error e =>
      rw [hm] at h
      simp only [Bind.bind, Except.bind] at h
      exact Except.noConfusion h
    | ok p =>
      rw [hm] at h
      simp only [Bind.bind, Except.bind] at h
      cases hr : get_pairs rs with
      | error e =>
        rw [hr] at h
        simp only [Except.bind] at h
        exact Except.noConfusion h
      | ok ps2 =>
        rw [hr] at h
        simp only [Except.bind] at h
        injection h with h2
        subst h2
        have hp := mkPairModel_ok_eq hm
        subst hp
        have ht := ih ps2 hr
        simp only [get_products, List.map_cons] at ht ⊢
        rw [ht]

/-- Witness for the amended C6 at a concrete all-valid response. -/
theorem products_eq_pairs_symbols_witness :
    (get_products respGood).values =
      ([⟨"BTCUSD", "BTC", "USD"⟩, ⟨"LTCBTC", "LTC", "BTC"⟩] : List PairModel).map
        PairModel.symbol :=
  products_eq_pairs_symbols respGood
    [⟨"BTCUSD", "BTC", "USD"⟩, ⟨"LTCBTC", "LTC", "BTC"⟩] rfl

/-- C1 counterexample: assembling the time series from an EMPTY candle list
does not return an empty series — `pd.DataFrame([])` has no columns at all,
so the subsequent `df['open_time']` lookup raises a `KeyError`. -/
theorem buildSeries_empty_raises :
    buildSeries [] = Except.error "KeyError: open_time" := rfl

/-- C1 (amended): on the empty candle list the assembly raises a `KeyError`
instead of returning an empty series; on every non-empty list it returns
the series with one row per candle, in input order, indexed by each
candle's `open_time`. -/
theorem buildSeries_empty_or_rows (cs : List HistoricalData) :
    (cs = [] → buildSeries cs = Except.error "KeyError: open_time") ∧
    (cs ≠ [] → buildSeries cs = Except.ok ⟨cs.map (fun c => c.open_time), cs⟩) := by
  constructor
  · intro h
    subst h
    rfl
  · intro h
    cases cs with
    | nil => exact absurd rfl h
    | cons c t =>
      have hred : buildSeries (c :: t) =
          Except.ok (TimeSeries.mk
            (((c :: t).map fun r => PValue.int r.open_time).map pdToDatetimeMs)
            (c :: t)) := rfl
      rw [hred, List.map_map]
      rfl

/-- Witness for the amended C1 at a concrete one-candle list. -/
theorem buildSeries_empty_or_rows_witness :
    buildSeries [sampleCandle] = Except.ok ⟨[1690000000000], [sampleCandle]⟩ :=
  (buildSeries_empty_or_rows [sampleCandle]).2 (by simp)

/-- C8 counterexample: when the month fetch of the first product fails, the
main loop (which contains no try/except) terminates at once: only the first
product's day step completed, and no step of the second product — e.g. the
fetch for ("ETHUSDT", day) — is ever processed. -/
theorem loop_does_not_proceed_past_failure :
    runMainLoop failMidFetch = ([("BTCUSDT", TimeWindow.day)], some "ConnectionError") ∧
    ("ETHUSDT", TimeWindow.day) ∉ (runMainLoop failMidFetch).1 := by
  constructor
  · rfl
  · decide

/-- C8 (amended): a failure of one (symbol, window) step ABORTS the whole
run instead of being skipped: the error propagates, exactly the steps
strictly before the failing one are processed, and all later steps are
dropped. -/
theorem loop_aborts_on_first_failure (f : String × TimeWindow → Except String Unit)
    (e : String) (pre post : List (String × TimeWindow)) (s : String × TimeWindow)
    (hmain : mainSteps = pre ++ s :: post)
    (hpre : ∀ x ∈ pre, f x = .ok ()) (hs : f s = .error e) :
    runMainLoop f = (pre, some e) := by
  rw [runMainLoop, hmain]
  exact runSteps_append_abort f e pre post s hpre hs

/-- Witness for the amended C8: a failure at ("ETHUSDT", year) leaves
exactly the five earlier steps processed. -/
theorem loop_aborts_on_first_failure_witness :
    runMainLoop failLateFetch =
      ([("BTCUSDT", TimeWindow.day), ("BTCUSDT", TimeWindow.month),
        ("BTCUSDT", TimeWindow.year), ("ETHUSDT", TimeWindow.day),
        ("ETHUSDT", TimeWindow.month)], some "ParseError") :=
  loop_aborts_on_first_failure failLateFetch "ParseError"
    [("BTCUSDT", TimeWindow.day), ("BTCUSDT", TimeWindow.month),
     ("BTCUSDT", TimeWindow.year), ("ETHUSDT", TimeWindow.day),
     ("ETHUSDT", TimeWindow.month)]
    [("LTCUSDT", TimeWindow.day), ("LTCUSDT", TimeWindow.month),
     ("LTCUSDT", TimeWindow.year)]
    ("ETHUSDT", TimeWindow.year)
    rfl
    (by intro x hx
        simp only [List.mem_cons, List.not_mem_nil, or_false] at hx
        rcases hx with rfl | rfl | rfl | rfl | rfl <;> rfl)
    rfl

/-- C9 counterexample: one record emitted through the two handlers of a
configured logger: the console handler's line carries the "CUSTOM: " prefix
once, but the file handler's line carries it TWICE, because
`CustomFormatter.format` mutates the shared record and both handlers share
the one formatter. -/
theorem log_file_line_prefixed_twice :
    callHandlers ⟨"2023-07-22 10:00:00", "baseloader", "INFO", "hello"⟩ =
      ["2023-07-22 10:00:00 - baseloader - INFO - CUSTOM: hello",
       "2023-07-22 10:00:00 - baseloader - INFO - CUSTOM: CUSTOM: hello"] ∧
    "2023-07-22 10:00:00 - baseloader - INFO - CUSTOM: CUSTOM: hello" ≠
      "2023-07-22 10:00:00 - baseloader - INFO - CUSTOM: hello" := by
  constructor
  · rfl
  · decide

/-- C9 (amended): every message emitted through a configured logger is
formatted as timestamp - logger_name - level - message on both handlers,
but the prefix accumulates: the first handler (console) emits it once and
the second handler (the log file) emits it twice. -/
theorem log_prefix_once_then_twice (a n l m : String) :
    callHandlers ⟨a, n, l, m⟩ =
      [a ++ " - " ++ n ++ " - " ++ l ++ " - " ++ ("CUSTOM: " ++ m),
       a ++ " - " ++ n ++ " - " ++ l ++ " - " ++ ("CUSTOM: " ++ ("CUSTOM: " ++ m))] := rfl
